import Mathlib

/-!
Column-distributed matrix (blegat/LINMA2710, project/)

A shallow embedding of `project/src/distributed_matrix.cpp` together with the
declarations of `project/include/distributed_matrix.hpp` and
`project/include/matrix.hpp`.

Conventions of the embedding.

* A C++ `int` is an `Int`; no arithmetic of the embedded code can overflow.
* A C++ `double` is a rational number (`ℚ`).  Every value that occurs in the
  concrete evaluations below is a small integer, which a `double` represents
  exactly.
* A C++ call either returns a value or throws: an operation that the
  specification allows to fail returns `Except MatrixError _`.
* A `void` member function that mutates `*this` returns the new object.
* `MPI_Comm_rank(MPI_COMM_WORLD, &rank)` reads the rank of the calling
  process from the runtime; the embedding takes it as the argument `mpiRank`.
-/

namespace LINMA2710

/-- The error conditions of the specification (section 7). -/
inductive MatrixError where
  | dimensionMismatch
  | ownershipViolation
  | outOfRange
  | invalidArgument
  deriving DecidableEq, Repr

deriving instance DecidableEq for Except

/-! ## Dense matrix (`matrix.hpp`) -/

/-- Modelled from the spec: the dense matrix class.  `matrix.hpp` declares the
fields `rows`, `cols` and the row-major `std::vector<double> data`; the file
that defines its member functions is missing. -/
structure Matrix where
  rows : Int
  cols : Int
  data : List ℚ
  deriving DecidableEq, Repr

namespace Matrix

/-- Modelled from the spec: `Matrix::Matrix(int rows, int cols)`, whose
definition is missing.  The vector member is sized `rows * cols` and
value-initialised, so every element is `0.0`. -/
def new (rows cols : Int) : Matrix :=
  { rows := rows, cols := cols, data := List.replicate (rows * cols).toNat 0 }

/-- Modelled from the spec: `Matrix::Matrix(const Matrix&)`, whose definition
is missing: a copy of the dimensions and of the data. -/
def copy (other : Matrix) : Matrix :=
  { rows := other.rows, cols := other.cols, data := other.data }

/-- Modelled from the spec: `Matrix::numRows`, whose definition is missing. -/
def numRows (m : Matrix) : Int := m.rows

/-- Modelled from the spec: `Matrix::numCols`, whose definition is missing. -/
def numCols (m : Matrix) : Int := m.cols

/-- Modelled from the spec: `Matrix::get`, whose definition is missing.  The
access is bounds-checked (section 6) on a row-major buffer. -/
def get (m : Matrix) (i j : Int) : Except MatrixError ℚ :=
  if 0 ≤ i ∧ i < m.rows ∧ 0 ≤ j ∧ j < m.cols then
    .ok (m.data.getD (i * m.cols + j).toNat 0)
  else
    .error .outOfRange

/-- Modelled from the spec: `Matrix::set`, whose definition is missing.  The
access is bounds-checked (section 6) on a row-major buffer. -/
def set (m : Matrix) (i j : Int) (value : ℚ) : Except MatrixError Matrix :=
  if 0 ≤ i ∧ i < m.rows ∧ 0 ≤ j ∧ j < m.cols then
    .ok { m with data := m.data.set (i * m.cols + j).toNat value }
  else
    .error .outOfRange

/-- Element read with the value `0` outside the bounds; used to build the
dense product and the dense transpose. -/
def getD (m : Matrix) (i j : Int) : ℚ :=
  match m.get i j with
  | .ok v => v
  | .error _ => 0

/-- Builds the `rows x cols` matrix whose `(i, j)` element is `f i j`. -/
def ofFn (rows cols : Int) (f : Int → Int → ℚ) : Matrix :=
  { rows := rows, cols := cols,
    data := (List.range rows.toNat).flatMap fun i =>
      (List.range cols.toNat).map fun j => f (i : Int) (j : Int) }

/-- Modelled from the spec: `Matrix::operator*(const Matrix&)`, the full
matrix product, whose definition is missing.  Shapes that do not conform
fail. -/
def mul (a b : Matrix) : Except MatrixError Matrix :=
  if a.cols = b.rows then
    .ok (ofFn a.rows b.cols fun i j =>
      ((List.range a.cols.toNat).map fun k => a.getD i (k : Int) * b.getD (k : Int) j).sum)
  else
    .error .dimensionMismatch

/-- Modelled from the spec: `Matrix::transpose`, whose definition is
missing. -/
def transpose (m : Matrix) : Matrix :=
  ofFn m.cols m.rows fun i j => m.getD j i

/-- Modelled from the spec: `Matrix::operator+(const Matrix&)`, the
elementwise sum, whose definition is missing.  Shapes that differ fail. -/
def add (a b : Matrix) : Except MatrixError Matrix :=
  if a.rows = b.rows ∧ a.cols = b.cols then
    .ok { a with data := List.zipWith (fun x y => x + y) a.data b.data }
  else
    .error .dimensionMismatch

/-- Modelled from the spec: `Matrix::sub_mul(double scalar, const Matrix&
other)`, whose definition is missing: `this = this - scalar * other`
(comment in `matrix.hpp`), the receiver after the call being returned.
Shapes that differ fail. -/
def sub_mul (m : Matrix) (scalar : ℚ) (other : Matrix) : Except MatrixError Matrix :=
  if m.rows = other.rows ∧ m.cols = other.cols then
    .ok { m with data := List.zipWith (fun x y => x - scalar * y) m.data other.data }
  else
    .error .dimensionMismatch

/-- Modelled from the spec: `Matrix::apply`, whose definition is missing:
the function is applied to every element. -/
def apply (m : Matrix) (func : ℚ → ℚ) : Matrix :=
  { m with data := m.data.map func }

/-- The sum of all elements of a matrix, accumulated in storage order as
`testSum` does for its expected total. -/
def elementSum (m : Matrix) : ℚ := m.data.sum

/-- A matrix is well formed when its dimensions are non-negative and its
buffer holds exactly `rows * cols` elements. -/
def WellFormed (m : Matrix) : Prop :=
  0 ≤ m.rows ∧ 0 ≤ m.cols ∧ (m.data.length : Int) = m.rows * m.cols

end Matrix

/-! ## Distributed matrix (`distributed_matrix.hpp`, `distributed_matrix.cpp`) -/

/-- The fields of `class DistributedMatrix` (`distributed_matrix.hpp`). -/
structure DistributedMatrix where
  globalRows : Int
  globalCols : Int
  localCols : Int
  startCol : Int
  numProcesses : Int
  rank : Int
  localData : Matrix
  deriving DecidableEq, Repr

set_option linter.unusedVariables false

namespace DistributedMatrix

/-- `DistributedMatrix::DistributedMatrix(const Matrix& matrix, int numProcs)`:
the member initialisers, then `MPI_Comm_rank(MPI_COMM_WORLD, &rank)`; the rest
of the body is `// TODO`. -/
def construct (matrix : Matrix) (numProcs : Int) (mpiRank : Int) : DistributedMatrix :=
  let init : DistributedMatrix :=
    { globalRows := matrix.numRows
      globalCols := matrix.numCols
      localCols := 0
      startCol := 0
      numProcesses := numProcs
      rank := 0
      localData := Matrix.new matrix.numRows 1 }
  { init with rank := mpiRank }

/-- `DistributedMatrix::DistributedMatrix(const DistributedMatrix& other)`. -/
def copy (other : DistributedMatrix) : DistributedMatrix :=
  { globalRows := other.globalRows
    globalCols := other.globalCols
    localCols := other.localCols
    startCol := other.startCol
    numProcesses := other.numProcesses
    rank := other.rank
    localData := Matrix.copy other.localData }

/-- `DistributedMatrix::numRows`. -/
def numRows (d : DistributedMatrix) : Int := d.globalRows

/-- `DistributedMatrix::numCols`. -/
def numCols (d : DistributedMatrix) : Int := d.globalCols

/-- `DistributedMatrix::getLocalData`. -/
def getLocalData (d : DistributedMatrix) : Matrix := d.localData

/-- `DistributedMatrix::get`: the body is `// TODO` and `return 0.0;`. -/
def get (d : DistributedMatrix) (i j : Int) : Except MatrixError ℚ :=
  .ok 0

/-- `DistributedMatrix::set`: the body is `// TODO` only, the object is left
as it was. -/
def set (d : DistributedMatrix) (i j : Int) (value : ℚ) :
    Except MatrixError DistributedMatrix :=
  .ok d

/-- `DistributedMatrix::globalColIndex`: `// TODO` and `return -1;`. -/
def globalColIndex (d : DistributedMatrix) (localColIdx : Int) : Except MatrixError Int :=
  .ok (-1)

/-- `DistributedMatrix::localColIndex`: `// TODO` and `return -1;`. -/
def localColIndex (d : DistributedMatrix) (globalColIdx : Int) : Except MatrixError Int :=
  .ok (-1)

/-- `DistributedMatrix::ownerProcess`: `// TODO` and `return -1;`. -/
def ownerProcess (d : DistributedMatrix) (globalColIdx : Int) : Except MatrixError Int :=
  .ok (-1)

/-- `DistributedMatrix::fill`: the body is `// TODO` only. -/
def fill (d : DistributedMatrix) (value : ℚ) : DistributedMatrix := d

/-- `DistributedMatrix::operator+`: `// TODO` and
`return DistributedMatrix(*this);`. -/
def add (d other : DistributedMatrix) : Except MatrixError DistributedMatrix :=
  .ok (copy d)

/-- `DistributedMatrix::operator-`: `// TODO` and
`return DistributedMatrix(*this);`. -/
def sub (d other : DistributedMatrix) : Except MatrixError DistributedMatrix :=
  .ok (copy d)

/-- `DistributedMatrix::operator*(double scalar)`: `// TODO` and
`return DistributedMatrix(*this);`. -/
def smul (d : DistributedMatrix) (scalar : ℚ) : DistributedMatrix := copy d

/-- `DistributedMatrix::transpose`: `// TODO` and
`return Matrix(globalCols, globalRows);`. -/
def transpose (d : DistributedMatrix) : Matrix := Matrix.new d.globalCols d.globalRows

/-- `DistributedMatrix::sub_mul`: the body is `// TODO` only. -/
def sub_mul (d : DistributedMatrix) (scalar : ℚ) (other : DistributedMatrix) :
    Except MatrixError DistributedMatrix :=
  .ok d

/-- `DistributedMatrix::apply`: `// TODO` and `return DistributedMatrix(*this);`. -/
def apply (d : DistributedMatrix) (func : ℚ → ℚ) : DistributedMatrix := copy d

/-- `DistributedMatrix::applyBinary` (static): `// TODO` and
`return DistributedMatrix(a);`. -/
def applyBinary (a b : DistributedMatrix) (func : ℚ → ℚ → ℚ) :
    Except MatrixError DistributedMatrix :=
  .ok (copy a)

/-- `DistributedMatrix::multiplyTransposed`: `// TODO` and
`return Matrix(globalRows, other.globalRows);`. -/
def multiplyTransposed (d other : DistributedMatrix) : Except MatrixError Matrix :=
  .ok (Matrix.new d.globalRows other.globalRows)

/-- `DistributedMatrix::sum`: `// TODO` and `return 0.0;`. -/
def sum (d : DistributedMatrix) : ℚ := 0

/-- `DistributedMatrix::gather`: `// TODO` and
`return Matrix(globalRows, globalCols);`. -/
def gather (d : DistributedMatrix) : Matrix := Matrix.new d.globalRows d.globalCols

end DistributedMatrix

/-- The free function `multiply(const Matrix& left, const DistributedMatrix&
right)`: `// TODO` and `return DistributedMatrix(right);`. -/
def multiply (left : Matrix) (right : DistributedMatrix) :
    Except MatrixError DistributedMatrix :=
  .ok (DistributedMatrix.copy right)

/-- The free function `sync_matrix(Matrix *matrix, int rank, int src)`: the
body is `// TODO` only, the matrix is left as it was. -/
def sync_matrix (matrix : Matrix) (rank src : Int) : Except MatrixError Matrix :=
  .ok matrix

/-- The `DistributedMatrix` values reachable through the public API: built
by the partitioning constructor, then copied or transformed by `fill`, `set`,
`sub_mul`, `operator+`, `operator-`, `operator*(scalar)`, `apply`,
`applyBinary` or `multiply`, every operand that is a `DistributedMatrix` being
reachable itself.  An operation that can raise contributes its result only
when it returns. -/
inductive Reachable : DistributedMatrix → Prop where
  | construct (matrix : Matrix) (numProcs mpiRank : Int) :
      Reachable (DistributedMatrix.construct matrix numProcs mpiRank)
  | copy {d : DistributedMatrix} :
      Reachable d → Reachable (DistributedMatrix.copy d)
  | fill {d : DistributedMatrix} (value : ℚ) :
      Reachable d → Reachable (d.fill value)
  | set {d r : DistributedMatrix} (i j : Int) (value : ℚ) :
      Reachable d → d.set i j value = .ok r → Reachable r
  | sub_mul {d other r : DistributedMatrix} (scalar : ℚ) :
      Reachable d → Reachable other → d.sub_mul scalar other = .ok r → Reachable r
  | add {d other r : DistributedMatrix} :
      Reachable d → Reachable other → d.add other = .ok r → Reachable r
  | sub {d other r : DistributedMatrix} :
      Reachable d → Reachable other → d.sub other = .ok r → Reachable r
  | smul {d : DistributedMatrix} (scalar : ℚ) :
      Reachable d → Reachable (d.smul scalar)
  | apply {d : DistributedMatrix} (func : ℚ → ℚ) :
      Reachable d → Reachable (d.apply func)
  | applyBinary {a b r : DistributedMatrix} (func : ℚ → ℚ → ℚ) :
      Reachable a → Reachable b → DistributedMatrix.applyBinary a b func = .ok r →
        Reachable r
  | multiply {right r : DistributedMatrix} (left : Matrix) :
      Reachable right → multiply left right = .ok r → Reachable r

/-! ## The partition rule of the specification (section 3) -/

namespace Partition

/-- The specification's `count(r) = C/P + (1 if r < C%P else 0)`, with the
truncating division and remainder of C++ as in `testColumnDistribution`
(`cols / numProcs`, `cols % numProcs`). -/
def count (C P r : Int) : Int :=
  Int.tdiv C P + (if r < Int.tmod C P then 1 else 0)

/-- The specification's `start(r) = sum of count(k) for k<r`. -/
def start (C P r : Int) : Int :=
  ((List.range r.toNat).map fun k => count C P (k : Int)).sum

/-- Rank `r` owns global column `j`: `j` lies in
`[start(r), start(r) + count(r))`. -/
def owns (C P r j : Int) : Prop :=
  start C P r ≤ j ∧ j < start C P r + count C P r

instance (C P r j : Int) : Decidable (owns C P r j) := by
  unfold owns; infer_instance

end Partition

/-! ## Inputs of `tests/test_distributed.cpp` -/

/-- The matrix of `testColumnDistribution` when run on one process:
`cols = numProcs * 2 + 1 = 3`, element `(i, j)` is `i * 100 + j`. -/
def testColumnDistributionMatrix : Matrix :=
  { rows := 3, cols := 3, data := [0, 1, 2, 100, 101, 102, 200, 201, 202] }

/-- The matrix of `testConstructorAndBasics`: 3 x 4, element `(i, j)` is
`i * 10 + j`. -/
def testConstructorMatrix : Matrix :=
  { rows := 3, cols := 4, data := [0, 1, 2, 3, 10, 11, 12, 13, 20, 21, 22, 23] }

/-- The matrix of `testGetAndSet` when run on two processes: `2 x numProcs`,
element `(i, j)` is `i * numProcs + j`. -/
def testGetAndSetMatrix : Matrix :=
  { rows := 2, cols := 2, data := [0, 1, 2, 3] }

/-- The left matrix of `testMultiply`: 2 x 3, element `(i, j)` is
`i * 3 + j + 1`. -/
def testMultiplyLeft : Matrix :=
  { rows := 2, cols := 3, data := [1, 2, 3, 4, 5, 6] }

/-- The right matrix of `testMultiply`: 3 x 4, element `(i, j)` is
`i * 4 + j + 1`. -/
def testMultiplyRight : Matrix :=
  { rows := 3, cols := 4, data := [1, 2, 3, 4, 5, 6, 7, 8, 9, 10, 11, 12] }

/-- The first matrix of `testMultiplyTransposed`: 3 x 5, element `(i, j)` is
`i * 5 + j + 1`. -/
def testTransposedFirst : Matrix :=
  { rows := 3, cols := 5,
    data := [1, 2, 3, 4, 5, 6, 7, 8, 9, 10, 11, 12, 13, 14, 15] }

/-- The second matrix of `testMultiplyTransposed`: 4 x 5, element `(i, j)` is
`i * 5 + j + 2`. -/
def testTransposedSecond : Matrix :=
  { rows := 4, cols := 5,
    data := [2, 3, 4, 5, 6, 7, 8, 9, 10, 11, 12, 13, 14, 15, 16, 17, 18, 19, 20, 21] }

/-- The matrix of `testSum`: 3 x 5, element `(i, j)` is `i * 5 + j + 1`. -/
def testSumMatrix : Matrix :=
  { rows := 3, cols := 5,
    data := [1, 2, 3, 4, 5, 6, 7, 8, 9, 10, 11, 12, 13, 14, 15] }

/-- The matrix `testMatrix1` of `testCommonOperations`: 3 x 4, element
`(i, j)` is `i * 4 + j + 1`. -/
def testCommonMatrix1 : Matrix :=
  { rows := 3, cols := 4, data := [1, 2, 3, 4, 5, 6, 7, 8, 9, 10, 11, 12] }

/-- The matrix `testMatrix2` of `testCommonOperations`: 3 x 4, element
`(i, j)` is `(i * 4 + j + 1) * 2`. -/
def testCommonMatrix2 : Matrix :=
  { rows := 3, cols := 4, data := [2, 4, 6, 8, 10, 12, 14, 16, 18, 20, 22, 24] }

/-- The matrix of `testApply`: 2 x 5, element `(i, j)` is `i + j`. -/
def testApplyMatrix : Matrix :=
  { rows := 2, cols := 5, data := [0, 1, 2, 3, 4, 1, 2, 3, 4, 5] }

/-- The function `squareFunc` of `testApply`. -/
def squareFunc (x : ℚ) : ℚ := x * x

/-- The matrix `testMatrix1` of `testApplyBinary`: 3 x 4, element `(i, j)` is
`i + j`. -/
def testApplyBinaryMatrix1 : Matrix :=
  { rows := 3, cols := 4, data := [0, 1, 2, 3, 1, 2, 3, 4, 2, 3, 4, 5] }

/-- The matrix `testMatrix2` of `testApplyBinary`: 3 x 4, element `(i, j)` is
`i * j`. -/
def testApplyBinaryMatrix2 : Matrix :=
  { rows := 3, cols := 4, data := [0, 0, 0, 0, 0, 1, 2, 3, 0, 2, 4, 6] }

/-- The function `addFunc` of `testApplyBinary`. -/
def addFunc (a b : ℚ) : ℚ := a + b

/-- A 2 x 2 left operand whose column count (2) differs from the row count
(3) of the right matrix of `testMultiply`. -/
def mismatchedLeft : Matrix :=
  { rows := 2, cols := 2, data := [1, 2, 3, 4] }

/-! ## What the embedded code computes, whatever the input -/

/-- The constructor always allocates a local slice of exactly one column. -/
theorem construct_localData_numCols (matrix : Matrix) (numProcs mpiRank : Int) :
    (DistributedMatrix.construct matrix numProcs mpiRank).getLocalData.numCols = 1 := rfl

/-- The constructor always leaves the column range `[startCol, startCol +
localCols)` empty at column 0. -/
theorem construct_range (matrix : Matrix) (numProcs mpiRank : Int) :
    (DistributedMatrix.construct matrix numProcs mpiRank).startCol = 0 ∧
    (DistributedMatrix.construct matrix numProcs mpiRank).localCols = 0 := ⟨rfl, rfl⟩

/-- The constructor copies the global shape of its argument. -/
theorem construct_shape (matrix : Matrix) (numProcs mpiRank : Int) :
    (DistributedMatrix.construct matrix numProcs mpiRank).numRows = matrix.numRows ∧
    (DistributedMatrix.construct matrix numProcs mpiRank).numCols = matrix.numCols := ⟨rfl, rfl⟩

/-- The copy constructor returns its argument unchanged. -/
theorem copy_eq (d : DistributedMatrix) : DistributedMatrix.copy d = d := rfl

/-- The result of `gather` depends on the global shape only. -/
theorem gather_eq_new (d : DistributedMatrix) :
    d.gather = Matrix.new d.numRows d.numCols := rfl

/-- The free function `multiply` returns its right operand unchanged: the
global shape and the column partition of the result are those of `right`,
and `left` is not used. -/
theorem multiply_eq_right (left : Matrix) (right : DistributedMatrix) :
    multiply left right = .ok right := rfl

/-! ## The claims -/

/-- C1 (the code diverges).  On the input of `testColumnDistribution` run on
one process (a 3 x 3 matrix, `P = 1`, rank 0) the local slice built by the
constructor has 1 column, whereas the partition rule `C/P + (1 if r < C mod P
else 0)` gives 3 columns. -/
theorem C1_local_slice_columns_diverge :
    (DistributedMatrix.construct testColumnDistributionMatrix 1 0).getLocalData.numCols = 1 ∧
    Partition.count testColumnDistributionMatrix.numCols 1 0 = 3 := by
  decide

/-- C2 (the code diverges).  On the input of `testConstructorAndBasics` run on
one process, `gather` of the constructed matrix is the freshly allocated
3 x 4 matrix; its element `(0, 1)` is 0 while the source matrix holds 1 there,
so the gathered matrix is not the source matrix. -/
theorem C2_gather_roundtrip_diverges :
    (DistributedMatrix.construct testConstructorMatrix 1 0).gather = Matrix.new 3 4 ∧
    (DistributedMatrix.construct testConstructorMatrix 1 0).gather.get 0 1 = .ok 0 ∧
    testConstructorMatrix.get 0 1 = .ok 1 ∧
    (DistributedMatrix.construct testConstructorMatrix 1 0).gather ≠ testConstructorMatrix := by
  decide

/-- C3 (the code diverges).  On the input of `testColumnDistribution` run on
one process, local column 0 is a column of the local slice of rank 0, yet
`ownerProcess(globalColIndex(0))` and `localColIndex(globalColIndex(0))` both
return -1 instead of the rank 0 and the local index 0. -/
theorem C3_index_conversions_diverge :
    (DistributedMatrix.construct testColumnDistributionMatrix 1 0).rank = 0 ∧
    0 < (DistributedMatrix.construct testColumnDistributionMatrix 1 0).getLocalData.numCols ∧
    ((DistributedMatrix.construct testColumnDistributionMatrix 1 0).globalColIndex 0).bind
      (DistributedMatrix.construct testColumnDistributionMatrix 1 0).ownerProcess = .ok (-1) ∧
    ((DistributedMatrix.construct testColumnDistributionMatrix 1 0).globalColIndex 0).bind
      (DistributedMatrix.construct testColumnDistributionMatrix 1 0).localColIndex = .ok (-1) := by
  decide

/-- C4 (the code diverges).  For the 3-column matrix of
`testColumnDistribution`, whatever the process count and the rank, the range
`[startCol, startCol + localCols)` computed by the constructor starts at 0 and
ends at 0; so the range of the last rank does not end at `C = 3` and the
ranges cover no column. -/
theorem C4_column_ranges_do_not_cover :
    testColumnDistributionMatrix.numCols = 3 ∧
    ∀ P r : Int,
      (DistributedMatrix.construct testColumnDistributionMatrix P r).startCol = 0 ∧
      (DistributedMatrix.construct testColumnDistributionMatrix P r).startCol +
        (DistributedMatrix.construct testColumnDistributionMatrix P r).localCols = 0 := by
  refine ⟨by decide, fun P r => ⟨rfl, rfl⟩⟩

/-- C5 (the code diverges).  On the input of `testGetAndSet` run on two
processes, global column 1 belongs to rank 1 under the partition rule, yet on
rank 0 `get(1, 1)` returns 0.0 and `set(1, 1, 100.0)` returns normally with the
object unchanged: neither call fails. -/
theorem C5_remote_access_does_not_fail :
    Partition.owns 2 2 1 1 ∧ ¬ Partition.owns 2 2 0 1 ∧
    (DistributedMatrix.construct testGetAndSetMatrix 2 0).get 1 1 = .ok 0 ∧
    (DistributedMatrix.construct testGetAndSetMatrix 2 0).set 1 1 100 =
      .ok (DistributedMatrix.construct testGetAndSetMatrix 2 0) := by
  decide

/-- C6 (the code diverges).  On the input of `testGetAndSet` run on two
processes, global column 0 belongs to rank 0 under the partition rule and the
source matrix holds 2 at `(1, 0)`, yet on rank 0 `get(1, 0)` returns 0.0. -/
theorem C6_owned_get_diverges :
    Partition.owns 2 2 0 0 ∧
    testGetAndSetMatrix.get 1 0 = .ok 2 ∧
    (DistributedMatrix.construct testGetAndSetMatrix 2 0).get 1 0 = .ok 0 := by
  decide

/-- C7 (the code diverges).  On the input of `testGetAndSet` run on two
processes, on rank 0 `set(1, 0, 99.0)` returns normally and the following
`get(1, 0)` returns 0.0, not 99.0. -/
theorem C7_get_after_set_diverges :
    Partition.owns 2 2 0 0 ∧
    ((DistributedMatrix.construct testGetAndSetMatrix 2 0).set 1 0 99).bind
      (fun d => d.get 1 0) = .ok 0 ∧
    ((DistributedMatrix.construct testGetAndSetMatrix 2 0).set 1 0 99).bind
      (fun d => d.get 1 0) ≠ .ok 99 := by
  decide

/-- C8 (the code diverges).  On the input of `testMultiply` run on one
process, gathering `multiply(L, DistributedMatrix(R, 1))` gives the freshly
allocated 3 x 4 matrix, whereas the dense product `L * R` is the 2 x 4 matrix
with rows (38, 44, 50, 56) and (83, 98, 113, 128). -/
theorem C8_multiply_gather_diverges :
    (multiply testMultiplyLeft (DistributedMatrix.construct testMultiplyRight 1 0)).map
      DistributedMatrix.gather = .ok (Matrix.new 3 4) ∧
    testMultiplyLeft.mul testMultiplyRight =
      .ok { rows := 2, cols := 4, data := [38, 44, 50, 56, 83, 98, 113, 128] } := by
  refine ⟨by decide, ?_⟩
  simp [Matrix.mul, Matrix.getD, Matrix.get, Matrix.ofFn, List.range_succ, List.flatMap,
    testMultiplyLeft, testMultiplyRight]
  norm_num

/-- C9 (the code diverges).  On the input of `testMultiply` run on one
process the shapes conform (`L.numCols() == R.numRows() == 3`), yet the matrix
returned by `multiply(L, R)` reports `numRows() == 3`, the row count of `R`,
not `L.numRows() == 2`. -/
theorem C9_multiply_numRows_diverges :
    testMultiplyLeft.numCols = (DistributedMatrix.construct testMultiplyRight 1 0).numRows ∧
    testMultiplyLeft.numRows = 2 ∧
    (multiply testMultiplyLeft (DistributedMatrix.construct testMultiplyRight 1 0)).map
      DistributedMatrix.numRows = .ok 3 := by
  decide

/-- C10 (the code diverges).  On the input of `testMultiplyTransposed` run on
one process, `multiplyTransposed` returns the freshly allocated 3 x 4 matrix
(all elements 0.0), whereas `A * transpose(B)` is the 3 x 4 matrix with rows
(70, 145, 220, 295), (170, 370, 570, 770) and (270, 595, 920, 1245). -/
theorem C10_multiplyTransposed_diverges :
    (DistributedMatrix.construct testTransposedFirst 1 0).multiplyTransposed
      (DistributedMatrix.construct testTransposedSecond 1 0) = .ok (Matrix.new 3 4) ∧
    (Matrix.new 3 4).data = [0, 0, 0, 0, 0, 0, 0, 0, 0, 0, 0, 0] ∧
    testTransposedFirst.mul testTransposedSecond.transpose =
      .ok { rows := 3, cols := 4,
            data := [70, 145, 220, 295, 170, 370, 570, 770, 270, 595, 920, 1245] } := by
  refine ⟨by decide, by decide, ?_⟩
  simp [Matrix.mul, Matrix.transpose, Matrix.getD, Matrix.get, Matrix.ofFn, List.range_succ,
    List.flatMap, testTransposedFirst, testTransposedSecond]
  norm_num

/-- C11 (the code diverges).  On the input of `testSum` run on one process,
`sum()` returns 0.0, whereas the elements of the source matrix add up to
120. -/
theorem C11_sum_diverges :
    (DistributedMatrix.construct testSumMatrix 1 0).sum = 0 ∧
    testSumMatrix.elementSum = 120 := by
  refine ⟨rfl, ?_⟩
  simp [Matrix.elementSum, testSumMatrix]
  norm_num

/-- C12 (the code diverges).  On the input of `testCommonOperations` run on
one process, gathering `dist1 + dist2` gives the freshly allocated 3 x 4
matrix (all elements 0.0), whereas the dense sum `testMatrix1 + testMatrix2`
has the elements 3, 6, ..., 36. -/
theorem C12_add_gather_diverges :
    ((DistributedMatrix.construct testCommonMatrix1 1 0).add
      (DistributedMatrix.construct testCommonMatrix2 1 0)).map DistributedMatrix.gather =
      .ok (Matrix.new 3 4) ∧
    (Matrix.new 3 4).data = [0, 0, 0, 0, 0, 0, 0, 0, 0, 0, 0, 0] ∧
    testCommonMatrix1.add testCommonMatrix2 =
      .ok { rows := 3, cols := 4,
            data := [3, 6, 9, 12, 15, 18, 21, 24, 27, 30, 33, 36] } := by
  refine ⟨by decide, by decide, ?_⟩
  simp [Matrix.add, testCommonMatrix1, testCommonMatrix2]
  norm_num

/-- C13 (the code diverges).  On the input of `testCommonOperations` run on
one process, after `sub_mul(2.0, dist2)` on the matrix built from
`testMatrix1` the gathered receiver is the freshly allocated 3 x 4 matrix
(all elements 0.0), whereas the dense `testMatrix1.sub_mul(2.0, testMatrix2)`
has the elements -3, -6, ..., -36. -/
theorem C13_sub_mul_gather_diverges :
    ((DistributedMatrix.construct testCommonMatrix1 1 0).sub_mul 2
      (DistributedMatrix.construct testCommonMatrix2 1 0)).map DistributedMatrix.gather =
      .ok (Matrix.new 3 4) ∧
    (Matrix.new 3 4).data = [0, 0, 0, 0, 0, 0, 0, 0, 0, 0, 0, 0] ∧
    testCommonMatrix1.sub_mul 2 testCommonMatrix2 =
      .ok { rows := 3, cols := 4,
            data := [-3, -6, -9, -12, -15, -18, -21, -24, -27, -30, -33, -36] } := by
  refine ⟨by decide, by decide, ?_⟩
  simp [Matrix.sub_mul, testCommonMatrix1, testCommonMatrix2]
  norm_num

/-- C14 (the code diverges).  On the input of `testApply` run on one process,
gathering `distMatrix.apply(squareFunc)` gives the freshly allocated 2 x 5
matrix (all elements 0.0), whereas `testMatrix.apply(squareFunc)` has the
elements 0, 1, 4, 9, 16 and 1, 4, 9, 16, 25. -/
theorem C14_apply_gather_diverges :
    ((DistributedMatrix.construct testApplyMatrix 1 0).apply squareFunc).gather =
      Matrix.new 2 5 ∧
    (Matrix.new 2 5).data = [0, 0, 0, 0, 0, 0, 0, 0, 0, 0] ∧
    testApplyMatrix.apply squareFunc =
      { rows := 2, cols := 5, data := [0, 1, 4, 9, 16, 1, 4, 9, 16, 25] } := by
  refine ⟨by decide, by decide, ?_⟩
  simp [Matrix.apply, testApplyMatrix, squareFunc]
  norm_num

/-- C15 (the code diverges).  On the input of `testApplyBinary` run on one
process, gathering `applyBinary(distMatrix1, distMatrix2, addFunc)` gives the
freshly allocated 3 x 4 matrix (all elements 0.0), whereas the expected
`testMatrix1 + testMatrix2` has the elements 0, 1, 2, 3, 1, 3, 5, 7, 2, 5, 8,
11. -/
theorem C15_applyBinary_gather_diverges :
    (DistributedMatrix.applyBinary (DistributedMatrix.construct testApplyBinaryMatrix1 1 0)
      (DistributedMatrix.construct testApplyBinaryMatrix2 1 0) addFunc).map
        DistributedMatrix.gather = .ok (Matrix.new 3 4) ∧
    (Matrix.new 3 4).data = [0, 0, 0, 0, 0, 0, 0, 0, 0, 0, 0, 0] ∧
    testApplyBinaryMatrix1.add testApplyBinaryMatrix2 =
      .ok { rows := 3, cols := 4, data := [0, 1, 2, 3, 1, 3, 5, 7, 2, 5, 8, 11] } := by
  refine ⟨by decide, by decide, ?_⟩
  simp [Matrix.add, testApplyBinaryMatrix1, testApplyBinaryMatrix2]
  norm_num

/-- C16 (the code diverges).  On the input of `testCommonOperations` run on
one process, `dist1.transpose()` is the freshly allocated 4 x 3 matrix (the
claimed shape, all elements 0.0), whereas `testMatrix1.transpose()` has the
rows (1, 5, 9), (2, 6, 10), (3, 7, 11) and (4, 8, 12). -/
theorem C16_transpose_diverges :
    (DistributedMatrix.construct testCommonMatrix1 1 0).transpose = Matrix.new 4 3 ∧
    (Matrix.new 4 3).data = [0, 0, 0, 0, 0, 0, 0, 0, 0, 0, 0, 0] ∧
    testCommonMatrix1.transpose =
      { rows := 4, cols := 3, data := [1, 5, 9, 2, 6, 10, 3, 7, 11, 4, 8, 12] } := by
  refine ⟨by decide, by decide, ?_⟩
  simp [Matrix.transpose, Matrix.getD, Matrix.get, Matrix.ofFn, List.range_succ,
    List.flatMap, testCommonMatrix1]

/-- C17.  The copy-constructed `DistributedMatrix(d)` has the same
`numRows()` and `numCols()` as `d`, the same local column count, start
column, process count and rank, and a local slice equal to
`d.getLocalData()`; the copy is a function of `d` alone. -/
theorem C17_copy_constructor_preserves (d : DistributedMatrix) :
    (DistributedMatrix.copy d).numRows = d.numRows ∧
    (DistributedMatrix.copy d).numCols = d.numCols ∧
    (DistributedMatrix.copy d).localCols = d.localCols ∧
    (DistributedMatrix.copy d).startCol = d.startCol ∧
    (DistributedMatrix.copy d).numProcesses = d.numProcesses ∧
    (DistributedMatrix.copy d).rank = d.rank ∧
    (DistributedMatrix.copy d).getLocalData = d.getLocalData :=
  ⟨rfl, rfl, rfl, rfl, rfl, rfl, rfl⟩

/-- C18.  The `DistributedMatrix` constructed from `(M, P)` on any rank
reports the global shape of `M`: `numRows() == M.numRows()` and `numCols() ==
M.numCols()`; hence the reported shape is the same for every process count
and every rank. -/
theorem C18_construct_reports_global_shape (M : Matrix) (P r : Int) :
    (DistributedMatrix.construct M P r).numRows = M.numRows ∧
    (DistributedMatrix.construct M P r).numCols = M.numCols ∧
    ∀ P2 r2 : Int,
      (DistributedMatrix.construct M P2 r2).numRows =
        (DistributedMatrix.construct M P r).numRows ∧
      (DistributedMatrix.construct M P2 r2).numCols =
        (DistributedMatrix.construct M P r).numCols :=
  ⟨rfl, rfl, fun _ _ => ⟨rfl, rfl⟩⟩

/-- C19 (the code diverges).  A 2 x 2 left operand and the distributed 3 x 4
right operand of `testMultiply` do not conform (2 columns against 3 rows):
the dense product of the two full matrices fails with a dimension mismatch,
yet `multiply` returns normally, its result being the right operand, and
raises no error. -/
theorem C19_multiply_mismatch_diverges :
    mismatchedLeft.numCols ≠ (DistributedMatrix.construct testMultiplyRight 1 0).numRows ∧
    mismatchedLeft.mul testMultiplyRight = .error .dimensionMismatch ∧
    multiply mismatchedLeft (DistributedMatrix.construct testMultiplyRight 1 0) =
      .ok (DistributedMatrix.construct testMultiplyRight 1 0) ∧
    ∀ e, multiply mismatchedLeft (DistributedMatrix.construct testMultiplyRight 1 0) ≠
      .error e := by
  refine ⟨by decide, by decide, rfl, ?_⟩
  intro e h
  simp [multiply] at h

/-- C20 (the code diverges).  The matrix built from the 3-column matrix of
`testColumnDistribution` has `C = 3` global columns, yet `ownerProcess(3)` and
`ownerProcess(-1)` return normally (the placeholder value -1) and raise no
error. -/
theorem C20_ownerProcess_out_of_range_diverges :
    (DistributedMatrix.construct testColumnDistributionMatrix 1 0).numCols = 3 ∧
    (DistributedMatrix.construct testColumnDistributionMatrix 1 0).ownerProcess 3 = .ok (-1) ∧
    (DistributedMatrix.construct testColumnDistributionMatrix 1 0).ownerProcess (-1) =
      .ok (-1) ∧
    ∀ e, (DistributedMatrix.construct testColumnDistributionMatrix 1 0).ownerProcess 3 ≠
        .error e ∧
      (DistributedMatrix.construct testColumnDistributionMatrix 1 0).ownerProcess (-1) ≠
        .error e := by
  refine ⟨by decide, rfl, rfl, ?_⟩
  intro e
  simp [DistributedMatrix.ownerProcess]

/-- C21 (the code diverges).  The matrices built from the 3 x 4 matrix
`testMatrix1` of `testCommonOperations` and from the 2 x 2 matrix of
`testGetAndSet` differ in both global dimensions: the dense sum and the dense
`sub_mul` of the two full matrices fail with a dimension mismatch, yet
`a + b`, `a - b`, `a.sub_mul(2.0, b)` and `applyBinary(a, b, addFunc)` all
return normally, each yielding the first operand.  Likewise `a + b` returns
normally for two matrices of the same 3 x 4 shape built for the process
counts 2 and 3. -/
theorem C21_binary_mismatch_diverges :
    (DistributedMatrix.construct testCommonMatrix1 1 0).numRows ≠
      (DistributedMatrix.construct testGetAndSetMatrix 1 0).numRows ∧
    (DistributedMatrix.construct testCommonMatrix1 1 0).numCols ≠
      (DistributedMatrix.construct testGetAndSetMatrix 1 0).numCols ∧
    testCommonMatrix1.add testGetAndSetMatrix = .error .dimensionMismatch ∧
    testCommonMatrix1.sub_mul 2 testGetAndSetMatrix = .error .dimensionMismatch ∧
    (DistributedMatrix.construct testCommonMatrix1 1 0).add
      (DistributedMatrix.construct testGetAndSetMatrix 1 0) =
        .ok (DistributedMatrix.construct testCommonMatrix1 1 0) ∧
    (DistributedMatrix.construct testCommonMatrix1 1 0).sub
      (DistributedMatrix.construct testGetAndSetMatrix 1 0) =
        .ok (DistributedMatrix.construct testCommonMatrix1 1 0) ∧
    (DistributedMatrix.construct testCommonMatrix1 1 0).sub_mul 2
      (DistributedMatrix.construct testGetAndSetMatrix 1 0) =
        .ok (DistributedMatrix.construct testCommonMatrix1 1 0) ∧
    DistributedMatrix.applyBinary (DistributedMatrix.construct testCommonMatrix1 1 0)
      (DistributedMatrix.construct testGetAndSetMatrix 1 0) addFunc =
        .ok (DistributedMatrix.construct testCommonMatrix1 1 0) ∧
    (DistributedMatrix.construct testCommonMatrix1 2 0).numProcesses ≠
      (DistributedMatrix.construct testCommonMatrix2 3 0).numProcesses ∧
    (DistributedMatrix.construct testCommonMatrix1 2 0).add
      (DistributedMatrix.construct testCommonMatrix2 3 0) =
        .ok (DistributedMatrix.construct testCommonMatrix1 2 0) := by
  refine ⟨by decide, by decide, by decide, by decide, rfl, rfl, rfl, rfl, by decide, rfl⟩

/-- C22.  Every `DistributedMatrix` reachable through the public API (built
by the partitioning constructor or the copy constructor, then transformed by
`fill`, `set`, `sub_mul`, `operator+`, `operator-`, `operator*(scalar)`,
`apply`, `applyBinary` or `multiply`) satisfies `getLocalData().numRows() ==
numRows()`. -/
theorem C22_local_rows_equal_global_rows (d : DistributedMatrix) (h : Reachable d) :
    d.getLocalData.numRows = d.numRows := by
  induction h with
  | construct matrix numProcs mpiRank => rfl
  | copy _ ih => exact ih
  | fill value _ ih => exact ih
  | set i j value _ hr ih =>
      simp only [DistributedMatrix.set, Except.ok.injEq] at hr
      exact hr ▸ ih
  | sub_mul scalar _ _ hr ih _ =>
      simp only [DistributedMatrix.sub_mul, Except.ok.injEq] at hr
      exact hr ▸ ih
  | add _ _ hr ih _ =>
      simp only [DistributedMatrix.add, Except.ok.injEq] at hr
      exact hr ▸ ih
  | sub _ _ hr ih _ =>
      simp only [DistributedMatrix.sub, Except.ok.injEq] at hr
      exact hr ▸ ih
  | smul scalar _ ih => exact ih
  | apply func _ ih => exact ih
  | applyBinary func _ _ hr ih _ =>
      simp only [DistributedMatrix.applyBinary, Except.ok.injEq] at hr
      exact hr ▸ ih
  | multiply left _ hr ih =>
      simp only [multiply, Except.ok.injEq] at hr
      exact hr ▸ ih

/-- Witness of C22 at the matrix built from `testMatrix1` of
`testCommonOperations` on rank 1 of 2, copied, mapped with `squareFunc` and
then multiplied on the left by the 2 x 3 matrix of `testMultiply`. -/
theorem C22_local_rows_equal_global_rows_witness :
    Reachable (DistributedMatrix.copy
      ((DistributedMatrix.copy (DistributedMatrix.construct testCommonMatrix1 2 1)).apply
        squareFunc)) ∧
    (DistributedMatrix.copy
      ((DistributedMatrix.copy (DistributedMatrix.construct testCommonMatrix1 2 1)).apply
        squareFunc)).getLocalData.numRows =
    (DistributedMatrix.copy
      ((DistributedMatrix.copy (DistributedMatrix.construct testCommonMatrix1 2 1)).apply
        squareFunc)).numRows :=
  ⟨Reachable.multiply testMultiplyLeft
      (Reachable.apply squareFunc (Reachable.copy (Reachable.construct testCommonMatrix1 2 1)))
      rfl,
    C22_local_rows_equal_global_rows _
      (Reachable.multiply testMultiplyLeft
        (Reachable.apply squareFunc
          (Reachable.copy (Reachable.construct testCommonMatrix1 2 1)))
        rfl)⟩

end LINMA2710
